import Mathlib

/-!
# Verification of the pennies-tracker incremental sync pipeline

Shallow embedding of the sync engine and state store of the repository
(`src/test.py`, with `src/scrape.py` as a variant of the same pipeline).
The engine level models `main` of `src/test.py` (lines 113-159) over a
structured `LibraryState`; the store level models `load_existing_data`
(lines 18-22) and `save_data` (lines 24-29) over a JSON document model,
including the `json.dump(..., indent=2)` serializer and a parser for the
JSON fragment the persisted document uses (strings, null, arrays,
objects).

External collaborators are modelled as oracle functions supplied to the
run: the Listing Provider's outcome is the candidate list itself
(`get_video_urls` returns an empty list on every failure path, lines
41-43, 60-65, so provider failure and an empty listing coincide), the
Media Fetcher is `audio : Candidate → Option String` (the result of
`download_audio`, which returns a path on success and `None` on failure,
lines 67-87), and the Transcript Generator is
`transcribe : Candidate → Option String` (the result of
`transcribe_audio`, which returns text or `None`, lines 89-111; the
local audio path is a deterministic function of the candidate id, so a
per-candidate oracle is faithful).  `datetime.now()` is modelled by the
run's date string (`%Y%m%d`) and timestamp string (isoformat) passed in
as parameters.
-/

set_option maxRecDepth 100000

namespace Pennies

/-- Configured creator name, `CREATOR = "pinkpennies_"` (src/test.py line 14). -/
def CREATOR : String := "pinkpennies_"

/-- One item descriptor returned by the Listing Provider: `get_video_urls`
builds dictionaries with keys `id`, `title`, `url` (src/test.py lines 51-55). -/
structure Candidate where
  id : String
  title : String
  url : String
deriving DecidableEq

/-- One record of the `videos` list of the persisted document:
dictionaries with keys `id`, `title`, `url`, `scraped_at`, `transcript`
(src/test.py lines 147-153). -/
structure VideoRecord where
  id : String
  title : String
  url : String
  scraped_at : String
  transcript : Option String
deriving DecidableEq

/-- The persisted document's structured shape (spec section 6): `creator`,
`videos` (ordered, newest first) and `last_updated` (src/test.py line 22). -/
structure LibraryState where
  creator : String
  videos : List VideoRecord
  last_updated : Option String
deriving DecidableEq

/-- The ids of the records currently in the state, as computed at the start
of a run: `existing_ids = {v["id"] for v in data["videos"]}` (src/test.py
line 119).  The Python set is modelled by a list with membership. -/
def idsOf (st : LibraryState) : List String :=
  st.videos.map (fun r => r.id)

/-- Per-item body of the processing loop (src/test.py lines 142-153):
`download_audio` is invoked; `transcript` stays `None` unless an audio path
came back, in which case `transcribe_audio` is invoked; the entry is built
from the candidate's fields, the run timestamp and the transcript. -/
def video_entry (timeStr : String) (audio transcribe : Candidate → Option String)
    (v : Candidate) : VideoRecord :=
  { id := v.id
    title := v.title
    url := v.url
    scraped_at := timeStr
    transcript :=
      match audio v with
      | none => none
      | some _ => transcribe v }

/-- The processing loop (src/test.py lines 136-156): for each candidate of
the capped batch, skip it when its id is in `existing_ids`, otherwise build
the entry and `insert(0)` it into the record list.  `existing_ids` is not
modified inside the loop, exactly as in the source. -/
def processLoop (existing_ids : List String) (timeStr : String)
    (audio transcribe : Candidate → Option String) :
    List Candidate → List VideoRecord → List VideoRecord
  | [], vids => vids
  | v :: vs, vids =>
    if v.id ∈ existing_ids then
      processLoop existing_ids timeStr audio transcribe vs vids
    else
      processLoop existing_ids timeStr audio transcribe vs
        (video_entry timeStr audio transcribe v :: vids)

/-- The placeholder entry inserted when the provider returned nothing
(src/test.py lines 125-131): id `"placeholder-" + %Y%m%d date`, fixed title
and creator URL, `transcript = None`. -/
def placeholder_entry (dateStr timeStr : String) : VideoRecord :=
  { id := "placeholder-" ++ dateStr
    title := "Run attempted - TikTok may be blocking"
    url := "https://www.tiktok.com/@" ++ CREATOR
    scraped_at := timeStr
    transcript := none }

/-- The state-level effect of `save_data` (src/test.py lines 24-29): stamp
`last_updated` with the current time.  Directory creation, serialization
and the console message are handled at the store level below. -/
def save_data (timeStr : String) (st : LibraryState) : LibraryState :=
  { st with last_updated := some timeStr }

/-- One sync run: `main` of src/test.py (lines 113-159) over the structured
state.  Compute `existing_ids`; if the provider returned no candidates,
prepend the placeholder entry and save (lines 123-133); otherwise run the
processing loop over `videos[:3]` (the hard-coded cap, line 136) and save. -/
def runSync (st : LibraryState) (cands : List Candidate) (dateStr timeStr : String)
    (audio transcribe : Candidate → Option String) : LibraryState :=
  let existing_ids := idsOf st
  match cands with
  | [] =>
    save_data timeStr { st with videos := placeholder_entry dateStr timeStr :: st.videos }
  | _ :: _ =>
    save_data timeStr
      { st with videos := processLoop existing_ids timeStr audio transcribe (cands.take 3) st.videos }

@[simp]
lemma video_entry_id (timeStr : String) (audio transcribe : Candidate → Option String)
    (v : Candidate) : (video_entry timeStr audio transcribe v).id = v.id := rfl

@[simp]
lemma video_entry_title (timeStr : String) (audio transcribe : Candidate → Option String)
    (v : Candidate) : (video_entry timeStr audio transcribe v).title = v.title := rfl

@[simp]
lemma video_entry_url (timeStr : String) (audio transcribe : Candidate → Option String)
    (v : Candidate) : (video_entry timeStr audio transcribe v).url = v.url := rfl

/-- When `download_audio` fails for a candidate, the entry built for it
carries no transcript (src/test.py lines 143-145). -/
lemma video_entry_transcript_of_fetch_fail (timeStr : String)
    (audio transcribe : Candidate → Option String) (v : Candidate)
    (h : audio v = none) :
    (video_entry timeStr audio transcribe v).transcript = none := by
  simp [video_entry, h]

/-- Records already in the accumulator survive the loop: the loop only
prepends, it never removes. -/
lemma processLoop_mem (e : List String) (t : String)
    (audio tr : Candidate → Option String) :
    ∀ (l : List Candidate) (vids : List VideoRecord) (x : VideoRecord),
      x ∈ vids → x ∈ processLoop e t audio tr l vids := by
  intro l
  induction l with
  | nil => intro vids x hx; simpa [processLoop] using hx
  | cons v vs ih =>
    intro vids x hx
    by_cases hv : v.id ∈ e
    · simpa [processLoop, hv] using ih vids x hx
    · simp only [processLoop, hv, if_false]
      exact ih _ x (List.mem_cons_of_mem _ hx)

/-- The loop adds at most one record per candidate. -/
lemma processLoop_length (e : List String) (t : String)
    (audio tr : Candidate → Option String) :
    ∀ (l : List Candidate) (vids : List VideoRecord),
      (processLoop e t audio tr l vids).length ≤ vids.length + l.length := by
  intro l
  induction l with
  | nil => intro vids; simp [processLoop]
  | cons v vs ih =>
    intro vids
    by_cases hv : v.id ∈ e
    · have h := ih vids
      simp only [processLoop, hv, if_true, List.length_cons]
      omega
    · have h := ih (video_entry t audio tr v :: vids)
      simp only [processLoop, hv, if_false, List.length_cons] at h ⊢
      omega

/-- When every candidate id is already known, the loop adds nothing
(every iteration hits the `continue` branch, src/test.py lines 137-138). -/
lemma processLoop_all_skip (e : List String) (t : String)
    (audio tr : Candidate → Option String) :
    ∀ (l : List Candidate) (vids : List VideoRecord),
      (∀ c ∈ l, c.id ∈ e) → processLoop e t audio tr l vids = vids := by
  intro l
  induction l with
  | nil => intro vids _; rfl
  | cons v vs ih =>
    intro vids h
    have hv : v.id ∈ e := h v (List.mem_cons_self v vs)
    simp only [processLoop, hv, if_true]
    exact ih vids (fun c hc => h c (List.mem_cons_of_mem _ hc))

/-- C4 (amended): with an empty candidate sequence (which is also what the
provider produces on failure), the run terminates successfully and
refreshes `last_updated`, but it prepends one placeholder record to
`videos` instead of adding nothing (src/test.py lines 123-133). -/
theorem runSync_empty_provider_behavior (st : LibraryState) (dateStr timeStr : String)
    (audio transcribe : Candidate → Option String) :
    runSync st [] dateStr timeStr audio transcribe =
      { creator := st.creator
        videos := placeholder_entry dateStr timeStr :: st.videos
        last_updated := some timeStr } := rfl

/-- C4 (counterexample): on the empty provider outcome the code does add a
record to `videos` — the claim's "no record is added" is false. -/
theorem runSync_empty_provider_adds_placeholder :
    (runSync ⟨CREATOR, [], none⟩ [] "20240101" "2024-01-01T09:00:00"
        (fun _ => none) (fun _ => none)).videos ≠ [] := by
  decide

/-- C5 (confirmed): given candidates `[A, B, C]` all of whose ids are
unseen, one run leaves `videos = [entry C, entry B, entry A, ...previous]`:
each new record is prepended in candidate order (src/test.py lines 136-156,
`insert(0, ...)` at line 155), and the previous records are unchanged. -/
theorem runSync_order_preservation (st : LibraryState) (a b c : Candidate)
    (dateStr timeStr : String) (audio transcribe : Candidate → Option String)
    (ha : a.id ∉ idsOf st) (hb : b.id ∉ idsOf st) (hc : c.id ∉ idsOf st) :
    (runSync st [a, b, c] dateStr timeStr audio transcribe).videos =
      video_entry timeStr audio transcribe c ::
      video_entry timeStr audio transcribe b ::
      video_entry timeStr audio transcribe a :: st.videos := by
  simp [runSync, save_data, processLoop, ha, hb, hc]

/-- Witness for C5 at a concrete empty store and three fresh candidates. -/
theorem runSync_order_preservation_witness :
    (runSync ⟨CREATOR, [], none⟩
        [⟨"a1", "A", "https://x/a1"⟩, ⟨"b1", "B", "https://x/b1"⟩, ⟨"c1", "C", "https://x/c1"⟩]
        "20240101" "t1" (fun _ => none) (fun _ => none)).videos =
      video_entry "t1" (fun _ => none) (fun _ => none) ⟨"c1", "C", "https://x/c1"⟩ ::
      video_entry "t1" (fun _ => none) (fun _ => none) ⟨"b1", "B", "https://x/b1"⟩ ::
      video_entry "t1" (fun _ => none) (fun _ => none) ⟨"a1", "A", "https://x/a1"⟩ :: [] :=
  runSync_order_preservation ⟨CREATOR, [], none⟩ _ _ _ "20240101" "t1" _ _
    (by decide) (by decide) (by decide)

/-- C2 (counterexample): a batch that lists the same unseen id twice
produces two records with that id in one run — the code never adds the id
to `existing_ids` inside the loop (src/test.py lines 135-156), so the
later duplicate is processed again, not skipped. -/
theorem runSync_inbatch_duplicate_processed_twice :
    ((runSync ⟨CREATOR, [], none⟩ [⟨"x1", "X", "ux"⟩, ⟨"x1", "X", "ux"⟩]
        "20240101" "t1" (fun _ => none) (fun _ => none)).videos.filter
        (fun r => r.id == "x1")).length = 2 := by
  decide

/-- C2 (amended): the known-id set is not updated during the batch; for a
candidate batch `[X, X]` with `X` unseen, both occurrences are processed
and two records with the same id are created. -/
theorem runSync_inbatch_duplicate_not_suppressed (st : LibraryState) (c : Candidate)
    (dateStr timeStr : String) (audio transcribe : Candidate → Option String)
    (h : c.id ∉ idsOf st) :
    (runSync st [c, c] dateStr timeStr audio transcribe).videos =
      video_entry timeStr audio transcribe c ::
      video_entry timeStr audio transcribe c :: st.videos := by
  simp [runSync, save_data, processLoop, h]

/-- Witness for the amended C2 at a concrete empty store. -/
theorem runSync_inbatch_duplicate_not_suppressed_witness :
    (runSync ⟨CREATOR, [], none⟩ [⟨"x2", "X", "ux"⟩, ⟨"x2", "X", "ux"⟩]
        "20240101" "t1" (fun _ => none) (fun _ => none)).videos =
      video_entry "t1" (fun _ => none) (fun _ => none) ⟨"x2", "X", "ux"⟩ ::
      video_entry "t1" (fun _ => none) (fun _ => none) ⟨"x2", "X", "ux"⟩ :: [] :=
  runSync_inbatch_duplicate_not_suppressed ⟨CREATOR, [], none⟩ _ "20240101" "t1" _ _
    (by decide)

/-- C10 (confirmed): with a non-empty candidate sequence only `videos[:3]`
is considered (src/test.py line 136) — the run on the full sequence equals
the run on its first three candidates — and at most three records are
added. -/
theorem runSync_batch_cap (st : LibraryState) (cands : List Candidate)
    (dateStr timeStr : String) (audio transcribe : Candidate → Option String)
    (h : cands ≠ []) :
    runSync st cands dateStr timeStr audio transcribe =
      runSync st (cands.take 3) dateStr timeStr audio transcribe ∧
    (runSync st cands dateStr timeStr audio transcribe).videos.length ≤
      st.videos.length + 3 := by
  obtain ⟨v, vs, rfl⟩ := List.exists_cons_of_ne_nil h
  constructor
  · cases hvt : (v :: vs).take 3 with
    | nil => simp at hvt
    | cons w ws =>
      simp only [runSync, save_data]
      rw [← hvt, List.take_take]
      simp
  · have hl := processLoop_length (idsOf st) timeStr audio transcribe
      ((v :: vs).take 3) st.videos
    have ht : ((v :: vs).take 3).length ≤ 3 := by simp [List.length_take]
    simp only [runSync, save_data]
    omega

/-- Witness for C10: four fresh candidates, only the first three are
processed. -/
theorem runSync_batch_cap_witness :
    ([⟨"a1", "A", "u"⟩, ⟨"b1", "B", "u"⟩, ⟨"c1", "C", "u"⟩, ⟨"d1", "D", "u"⟩] :
        List Candidate) ≠ [] ∧
    (runSync ⟨CREATOR, [], none⟩
        [⟨"a1", "A", "u"⟩, ⟨"b1", "B", "u"⟩, ⟨"c1", "C", "u"⟩, ⟨"d1", "D", "u"⟩]
        "20240101" "t1" (fun _ => none) (fun _ => none) =
      runSync ⟨CREATOR, [], none⟩
        ([⟨"a1", "A", "u"⟩, ⟨"b1", "B", "u"⟩, ⟨"c1", "C", "u"⟩, ⟨"d1", "D", "u"⟩].take 3)
        "20240101" "t1" (fun _ => none) (fun _ => none) ∧
    (runSync ⟨CREATOR, [], none⟩
        [⟨"a1", "A", "u"⟩, ⟨"b1", "B", "u"⟩, ⟨"c1", "C", "u"⟩, ⟨"d1", "D", "u"⟩]
        "20240101" "t1" (fun _ => none) (fun _ => none)).videos.length ≤
      (⟨CREATOR, [], none⟩ : LibraryState).videos.length + 3) :=
  ⟨by decide,
   runSync_batch_cap ⟨CREATOR, [], none⟩ _ "20240101" "t1" _ _ (by decide)⟩

/-- Every candidate of the batch ends the loop either already known or with
its id present in the resulting record list. -/
lemma processLoop_covers (e : List String) (t : String)
    (audio tr : Candidate → Option String) :
    ∀ (l : List Candidate) (vids : List VideoRecord) (c : Candidate), c ∈ l →
      c.id ∈ e ∨ c.id ∈ (processLoop e t audio tr l vids).map (fun r => r.id) := by
  intro l
  induction l with
  | nil => intro vids c hc; cases hc
  | cons v vs ih =>
    intro vids c hc
    rcases List.mem_cons.mp hc with rfl | hc'
    · by_cases hv : c.id ∈ e
      · exact Or.inl hv
      · right
        simp only [processLoop, hv, if_false]
        have hm := processLoop_mem e t audio tr vs
          (video_entry t audio tr c :: vids) (video_entry t audio tr c)
          (List.mem_cons_self _ _)
        exact List.mem_map.mpr ⟨_, hm, rfl⟩
    · by_cases hv : v.id ∈ e
      · simpa [processLoop, hv] using ih vids c hc'
      · simpa [processLoop, hv] using ih (video_entry t audio tr v :: vids) c hc'

/-- An unseen candidate of the batch gets its entry into the resulting
record list (src/test.py lines 137-155). -/
lemma processLoop_entry_mem (e : List String) (t : String)
    (audio tr : Candidate → Option String) :
    ∀ (l : List Candidate) (vids : List VideoRecord) (c : Candidate),
      c ∈ l → c.id ∉ e →
      video_entry t audio tr c ∈ processLoop e t audio tr l vids := by
  intro l
  induction l with
  | nil => intro _ c hc; intro _; cases hc
  | cons v vs ih =>
    intro vids c hc hni
    rcases List.mem_cons.mp hc with rfl | hc'
    · simp only [processLoop, hni, if_false]
      exact processLoop_mem e t audio tr vs _ _ (List.mem_cons_self _ _)
    · by_cases hv : v.id ∈ e
      · simp only [processLoop, hv, if_true]
        exact ih vids c hc' hni
      · simp only [processLoop, hv, if_false]
        exact ih _ c hc' hni

/-- Id-uniqueness is preserved by the loop, provided the batch itself
carries pairwise-distinct ids and unseen batch ids do not yet occur in the
accumulator. -/
lemma processLoop_nodup (e : List String) (t : String)
    (audio tr : Candidate → Option String) :
    ∀ (l : List Candidate) (vids : List VideoRecord),
      (vids.map (fun r => r.id)).Nodup →
      (l.map (fun c => c.id)).Nodup →
      (∀ c ∈ l, c.id ∉ e → c.id ∉ vids.map (fun r => r.id)) →
      ((processLoop e t audio tr l vids).map (fun r => r.id)).Nodup := by
  intro l
  induction l with
  | nil => intro vids h _ _; simpa [processLoop] using h
  | cons v vs ih =>
    intro vids hvids hl hinv
    simp only [List.map_cons, List.nodup_cons] at hl
    by_cases hv : v.id ∈ e
    · simp only [processLoop, hv, if_true]
      exact ih vids hvids hl.2
        (fun c hc => hinv c (List.mem_cons_of_mem _ hc))
    · simp only [processLoop, hv, if_false]
      apply ih (video_entry t audio tr v :: vids)
      · simp only [List.map_cons, video_entry_id, List.nodup_cons]
        exact ⟨hinv v (List.mem_cons_self _ _) hv, hvids⟩
      · exact hl.2
      · intro c hc hni
        simp only [List.map_cons, video_entry_id, List.mem_cons, not_or]
        refine ⟨?_, hinv c (List.mem_cons_of_mem _ hc) hni⟩
        intro heq
        exact hl.1 (heq ▸ List.mem_map.mpr ⟨c, hc, rfl⟩)

/-- C3 (counterexample): starting from a duplicate-free state, a single run
over a batch that repeats one unseen id leaves two records with the same
id, breaking the uniqueness invariant. -/
theorem runSync_id_uniqueness_violated :
    (idsOf ⟨CREATOR, [], none⟩).Nodup ∧
    ¬ (idsOf (runSync ⟨CREATOR, [], none⟩ [⟨"y1", "Y", "uy"⟩, ⟨"y1", "Y", "uy"⟩]
        "20240101" "t1" (fun _ => none) (fun _ => none))).Nodup :=
  ⟨by decide, by decide⟩

/-- C3 (amended): a single run preserves id-uniqueness provided the first
three candidates carry pairwise-distinct ids and, when the provider
returned nothing, the day's placeholder id is not already present. -/
theorem runSync_preserves_unique_ids (st : LibraryState) (cands : List Candidate)
    (dateStr timeStr : String) (audio transcribe : Candidate → Option String)
    (h1 : (idsOf st).Nodup)
    (h2 : ((cands.take 3).map (fun c => c.id)).Nodup)
    (h3 : cands = [] → ("placeholder-" ++ dateStr) ∉ idsOf st) :
    (idsOf (runSync st cands dateStr timeStr audio transcribe)).Nodup := by
  cases cands with
  | nil =>
    have h3' := h3 rfl
    have hre : idsOf (runSync st [] dateStr timeStr audio transcribe)
        = ("placeholder-" ++ dateStr) :: idsOf st := by
      simp [runSync, save_data, idsOf, placeholder_entry]
    rw [hre, List.nodup_cons]
    exact ⟨h3', h1⟩
  | cons v vs =>
    have hre : idsOf (runSync st (v :: vs) dateStr timeStr audio transcribe)
        = (processLoop (idsOf st) timeStr audio transcribe
            ((v :: vs).take 3) st.videos).map (fun r => r.id) := by
      simp [runSync, save_data, idsOf]
    rw [hre]
    exact processLoop_nodup _ _ _ _ _ _ h1 h2 (fun c _ hni hmem => hni hmem)

/-- Witness for the amended C3: empty store, two distinct fresh candidates. -/
theorem runSync_preserves_unique_ids_witness :
    (idsOf ⟨CREATOR, [], none⟩).Nodup ∧
    ((([⟨"y2", "Y", "u"⟩, ⟨"z2", "Z", "u"⟩] : List Candidate).take 3).map
      (fun c => c.id)).Nodup ∧
    (idsOf (runSync ⟨CREATOR, [], none⟩ [⟨"y2", "Y", "u"⟩, ⟨"z2", "Z", "u"⟩]
        "20240101" "t1" (fun _ => none) (fun _ => none))).Nodup :=
  ⟨by decide, by decide,
   runSync_preserves_unique_ids ⟨CREATOR, [], none⟩ _ "20240101" "t1" _ _
     (by decide) (by decide) (by decide)⟩

/-- C1 (counterexample): two successive runs during which the provider
returns the same (empty) candidate sequence prepend the same-day
placeholder twice (src/test.py lines 123-133), leaving duplicate ids in
`videos` — the claimed idempotence fails. -/
theorem runSync_twice_same_day_duplicate :
    (idsOf ⟨CREATOR, [], none⟩).Nodup ∧
    ¬ (idsOf (runSync
        (runSync ⟨CREATOR, [], none⟩ [] "20240102" "t1" (fun _ => none) (fun _ => none))
        [] "20240102" "t2" (fun _ => none) (fun _ => none))).Nodup :=
  ⟨by decide, by decide⟩

/-- C1 (amended): for a duplicate-free starting state and a provider that
returns the same non-empty candidate sequence (whose first three
candidates carry pairwise-distinct ids) on both runs, the second run adds
no record — `videos` and hence its id set are unchanged — and no duplicate
ids appear.  With an empty sequence the code instead prepends a placeholder
record on each run, so two same-day runs duplicate the placeholder id. -/
theorem runSync_idempotent_nonempty (st : LibraryState) (cands : List Candidate)
    (d1 t1 d2 t2 : String) (audio transcribe : Candidate → Option String)
    (hne : cands ≠ [])
    (h1 : (idsOf st).Nodup)
    (h2 : ((cands.take 3).map (fun c => c.id)).Nodup) :
    (runSync (runSync st cands d1 t1 audio transcribe) cands d2 t2 audio transcribe).videos =
      (runSync st cands d1 t1 audio transcribe).videos ∧
    (idsOf (runSync (runSync st cands d1 t1 audio transcribe)
        cands d2 t2 audio transcribe)).Nodup := by
  obtain ⟨v, vs, rfl⟩ := List.exists_cons_of_ne_nil hne
  have hst1 : (runSync st (v :: vs) d1 t1 audio transcribe).videos
      = processLoop (idsOf st) t1 audio transcribe ((v :: vs).take 3) st.videos := by
    simp [runSync, save_data]
  have hcov : ∀ c ∈ (v :: vs).take 3,
      c.id ∈ idsOf (runSync st (v :: vs) d1 t1 audio transcribe) := by
    intro c hc
    rcases processLoop_covers (idsOf st) t1 audio transcribe
        ((v :: vs).take 3) st.videos c hc with h | h
    · rcases List.mem_map.mp h with ⟨r, hr, hrid⟩
      exact List.mem_map.mpr
        ⟨r, by rw [hst1]; exact processLoop_mem _ _ _ _ _ _ r hr, hrid⟩
    · show c.id ∈ (runSync st (v :: vs) d1 t1 audio transcribe).videos.map (fun r => r.id)
      rw [hst1]; exact h
  have hskip := processLoop_all_skip
    (idsOf (runSync st (v :: vs) d1 t1 audio transcribe)) t2 audio transcribe
    ((v :: vs).take 3) (runSync st (v :: vs) d1 t1 audio transcribe).videos hcov
  have hvids : (runSync (runSync st (v :: vs) d1 t1 audio transcribe)
      (v :: vs) d2 t2 audio transcribe).videos
      = (runSync st (v :: vs) d1 t1 audio transcribe).videos := by
    simp only [runSync, save_data]
    exact hskip
  refine ⟨hvids, ?_⟩
  have hnodup1 : (idsOf (runSync st (v :: vs) d1 t1 audio transcribe)).Nodup := by
    show ((runSync st (v :: vs) d1 t1 audio transcribe).videos.map (fun r => r.id)).Nodup
    rw [hst1]
    exact processLoop_nodup _ _ _ _ _ _ h1 h2 (fun c _ hni hmem => hni hmem)
  show ((runSync (runSync st (v :: vs) d1 t1 audio transcribe)
      (v :: vs) d2 t2 audio transcribe).videos.map (fun r => r.id)).Nodup
  rw [hvids]
  exact hnodup1

/-- Witness for the amended C1: empty store, one fresh candidate, run twice. -/
theorem runSync_idempotent_nonempty_witness :
    ([⟨"w1", "W", "uw"⟩] : List Candidate) ≠ [] ∧
    (idsOf ⟨CREATOR, [], none⟩).Nodup ∧
    ((([⟨"w1", "W", "uw"⟩] : List Candidate).take 3).map (fun c => c.id)).Nodup ∧
    ((runSync (runSync ⟨CREATOR, [], none⟩ [⟨"w1", "W", "uw"⟩] "20240101" "t1"
          (fun _ => none) (fun _ => none))
        [⟨"w1", "W", "uw"⟩] "20240102" "t2" (fun _ => none) (fun _ => none)).videos =
      (runSync ⟨CREATOR, [], none⟩ [⟨"w1", "W", "uw"⟩] "20240101" "t1"
          (fun _ => none) (fun _ => none)).videos ∧
     (idsOf (runSync (runSync ⟨CREATOR, [], none⟩ [⟨"w1", "W", "uw"⟩] "20240101" "t1"
          (fun _ => none) (fun _ => none))
        [⟨"w1", "W", "uw"⟩] "20240102" "t2" (fun _ => none) (fun _ => none))).Nodup) :=
  ⟨by decide, by decide, by decide,
   runSync_idempotent_nonempty ⟨CREATOR, [], none⟩ _ "20240101" "t1" "20240102" "t2" _ _
     (by decide) (by decide) (by decide)⟩

/-- Changing the fetch oracle for a single candidate cannot change how the
loop treats records whose id differs from that candidate's: entries built
for other candidates depend only on their own oracle results, and entries
for the changed candidate are removed by the filter. -/
lemma processLoop_filter_congr (e : List String) (t : String)
    (audio audio' tr : Candidate → Option String) (c0 : Candidate)
    (hagree : ∀ x, x ≠ c0 → audio' x = audio x) :
    ∀ (l : List Candidate) (vids vids' : List VideoRecord),
      vids.filter (fun r => r.id != c0.id) = vids'.filter (fun r => r.id != c0.id) →
      (processLoop e t audio tr l vids).filter (fun r => r.id != c0.id) =
        (processLoop e t audio' tr l vids').filter (fun r => r.id != c0.id) := by
  intro l
  induction l with
  | nil => intro vids vids' h; simpa [processLoop] using h
  | cons v vs ih =>
    intro vids vids' h
    by_cases hv : v.id ∈ e
    · simp only [processLoop, hv, if_true]
      exact ih vids vids' h
    · simp only [processLoop, hv, if_false]
      apply ih
      by_cases hvc : v = c0
      · subst hvc
        have hfalse : ((video_entry t audio tr v).id != v.id) = false := by simp
        have hfalse' : ((video_entry t audio' tr v).id != v.id) = false := by simp
        simp only [List.filter_cons, hfalse, hfalse']
        exact h
      · have heq : video_entry t audio' tr v = video_entry t audio tr v := by
          simp [video_entry, hagree v hvc]
        rw [heq]
        simp only [List.filter_cons]
        cases hb : ((video_entry t audio tr v).id != c0.id) <;> simp [h]

/-- C6 (confirmed): for a candidate within the processed batch whose media
fetch fails (`download_audio` returns `None`, src/test.py lines 67-87),
transcription is skipped and a record is still created with the
candidate's title and url and `transcript = None` (lines 142-155); its id
is among the known ids of the resulting state, and the failure neither
aborts the run (the result is a total state) nor affects the records kept
for other ids: runs whose fetch oracles agree outside that candidate agree
on every record whose id differs. -/
theorem runSync_fetch_failure_degrades (st : LibraryState) (cands : List Candidate)
    (c : Candidate) (dateStr timeStr : String)
    (audio audio' transcribe : Candidate → Option String)
    (hc : c ∈ cands.take 3)
    (hid : c.id ∉ idsOf st)
    (hfail : audio c = none)
    (hagree : ∀ x, x ≠ c → audio' x = audio x) :
    video_entry timeStr audio transcribe c ∈
      (runSync st cands dateStr timeStr audio transcribe).videos ∧
    (video_entry timeStr audio transcribe c).transcript = none ∧
    (video_entry timeStr audio transcribe c).title = c.title ∧
    (video_entry timeStr audio transcribe c).url = c.url ∧
    c.id ∈ idsOf (runSync st cands dateStr timeStr audio transcribe) ∧
    (runSync st cands dateStr timeStr audio transcribe).videos.filter
        (fun r => r.id != c.id) =
      (runSync st cands dateStr timeStr audio' transcribe).videos.filter
        (fun r => r.id != c.id) := by
  cases cands with
  | nil => simp at hc
  | cons v vs =>
    have hmem : video_entry timeStr audio transcribe c ∈
        (runSync st (v :: vs) dateStr timeStr audio transcribe).videos := by
      simp only [runSync, save_data]
      exact processLoop_entry_mem _ _ _ _ _ _ _ hc hid
    refine ⟨hmem, video_entry_transcript_of_fetch_fail _ _ _ _ hfail, rfl, rfl, ?_, ?_⟩
    · exact List.mem_map.mpr ⟨_, hmem, rfl⟩
    · simp only [runSync, save_data]
      exact processLoop_filter_congr (idsOf st) timeStr audio audio' transcribe c
        hagree ((v :: vs).take 3) st.videos st.videos rfl

/-- Witness for C6: empty store, a failing candidate and a succeeding one. -/
theorem runSync_fetch_failure_degrades_witness :
    video_entry "t1" (fun x => if x = ⟨"w3", "W", "uw"⟩ then none else some "data/v3.mp3")
        (fun _ => none) ⟨"w3", "W", "uw"⟩ ∈
      (runSync ⟨CREATOR, [], none⟩ [⟨"w3", "W", "uw"⟩, ⟨"v3", "V", "uv"⟩] "20240101" "t1"
        (fun x => if x = ⟨"w3", "W", "uw"⟩ then none else some "data/v3.mp3")
        (fun _ => none)).videos ∧
    (video_entry "t1" (fun x => if x = ⟨"w3", "W", "uw"⟩ then none else some "data/v3.mp3")
        (fun _ => none) ⟨"w3", "W", "uw"⟩).transcript = none ∧
    (video_entry "t1" (fun x => if x = ⟨"w3", "W", "uw"⟩ then none else some "data/v3.mp3")
        (fun _ => none) ⟨"w3", "W", "uw"⟩).title = "W" ∧
    (video_entry "t1" (fun x => if x = ⟨"w3", "W", "uw"⟩ then none else some "data/v3.mp3")
        (fun _ => none) ⟨"w3", "W", "uw"⟩).url = "uw" ∧
    "w3" ∈ idsOf (runSync ⟨CREATOR, [], none⟩ [⟨"w3", "W", "uw"⟩, ⟨"v3", "V", "uv"⟩]
        "20240101" "t1"
        (fun x => if x = ⟨"w3", "W", "uw"⟩ then none else some "data/v3.mp3")
        (fun _ => none)) ∧
    (runSync ⟨CREATOR, [], none⟩ [⟨"w3", "W", "uw"⟩, ⟨"v3", "V", "uv"⟩] "20240101" "t1"
        (fun x => if x = ⟨"w3", "W", "uw"⟩ then none else some "data/v3.mp3")
        (fun _ => none)).videos.filter (fun r => r.id != "w3") =
      (runSync ⟨CREATOR, [], none⟩ [⟨"w3", "W", "uw"⟩, ⟨"v3", "V", "uv"⟩] "20240101" "t1"
        (fun x => if x = ⟨"w3", "W", "uw"⟩ then some "data/w3.mp3" else some "data/v3.mp3")
        (fun _ => none)).videos.filter
        (fun r => r.id != "w3") :=
  runSync_fetch_failure_degrades ⟨CREATOR, [], none⟩ _ ⟨"w3", "W", "uw"⟩ "20240101" "t1"
    _ _ _ (by decide) (by decide) (by simp)
    (fun x hx => by simp [hx])

/-! ## The store level: the persisted JSON document

`load_existing_data` (src/test.py lines 18-22) returns the parsed JSON
document (`json.load`) when the file exists and a fresh dictionary
otherwise; `save_data` (lines 24-29) assigns `last_updated` on the loaded
dictionary and rewrites the whole file with `json.dump(data, f, indent=2)`.
The document model below covers the JSON fragment the persisted document
shape of spec section 6 uses: strings, null, arrays and objects (object
key order is significant, as it is for Python dictionaries). -/

/-- The double-quote character. -/
def quoteChar : Char := Char.ofNat 34

/-- The backslash character. -/
def backslashChar : Char := Char.ofNat 92

/-- The opening-brace character. -/
def lbraceChar : Char := Char.ofNat 123

/-- The closing-brace character. -/
def rbraceChar : Char := Char.ofNat 125

mutual
inductive Json where
  | null : Json
  | str : String → Json
  | arr : JsonArr → Json
  | obj : JsonObj → Json
inductive JsonArr where
  | nil : JsonArr
  | cons : Json → JsonArr → JsonArr
inductive JsonObj where
  | nil : JsonObj
  | cons : String → Json → JsonObj → JsonObj
end

/-- Indentation produced by `json.dump(..., indent=2)` at nesting level
`lvl`: two spaces per level. -/
def indentStr (lvl : Nat) : String := String.mk (List.replicate (2 * lvl) ' ')

/-- Lowercase hexadecimal digit, as Python's json encoder emits. -/
def hexDigitChar (n : Nat) : Char :=
  if n < 10 then Char.ofNat (48 + n) else Char.ofNat (87 + n)

/-- One `\uXXXX` escape. -/
def uEscape (n : Nat) : List Char :=
  [backslashChar, 'u', hexDigitChar (n / 4096 % 16), hexDigitChar (n / 256 % 16),
    hexDigitChar (n / 16 % 16), hexDigitChar (n % 16)]

/-- Escaping of one character exactly as `json.dump` with its default
`ensure_ascii=True` does: short escapes for the two special and five
common control characters, `\u00XX` for the other control characters,
the character itself for printable ASCII, and `\uXXXX` (a surrogate pair
beyond the BMP) for non-ASCII. -/
def escapeChar (c : Char) : List Char :=
  if c = quoteChar then [backslashChar, quoteChar]
  else if c = backslashChar then [backslashChar, backslashChar]
  else if c = Char.ofNat 10 then [backslashChar, 'n']
  else if c = Char.ofNat 9 then [backslashChar, 't']
  else if c = Char.ofNat 13 then [backslashChar, 'r']
  else if c = Char.ofNat 8 then [backslashChar, 'b']
  else if c = Char.ofNat 12 then [backslashChar, 'f']
  else if c.toNat < 32 then uEscape c.toNat
  else if c.toNat < 128 then [c]
  else if c.toNat < 65536 then uEscape c.toNat
  else uEscape (55296 + (c.toNat - 65536) / 1024) ++ uEscape (56320 + (c.toNat - 65536) % 1024)

/-- A JSON string literal: quotes around the escaped characters. -/
def renderString (s : String) : String :=
  String.mk (quoteChar :: ((s.data.map escapeChar).flatten ++ [quoteChar]))

mutual
/-- Serialization exactly as `json.dump(data, f, indent=2)` (src/test.py
lines 27-28): pretty-printed with two-space indentation, items separated
by `",\n"`, keys separated from values by `": "`, empty containers
rendered inline. -/
def render (lvl : Nat) : Json → String
  | .null => "null"
  | .str s => renderString s
  | .arr .nil => "[]"
  | .arr (.cons x xs) =>
      "[\n" ++ indentStr (lvl + 1) ++ renderArrItems (lvl + 1) (.cons x xs) ++
        "\n" ++ indentStr lvl ++ "]"
  | .obj .nil => String.mk [lbraceChar, rbraceChar]
  | .obj (.cons k v rest) =>
      String.mk [lbraceChar] ++ "\n" ++ indentStr (lvl + 1) ++
        renderObjItems (lvl + 1) (.cons k v rest) ++ "\n" ++ indentStr lvl ++
        String.mk [rbraceChar]

def renderArrItems (lvl : Nat) : JsonArr → String
  | .nil => ""
  | .cons x .nil => render lvl x
  | .cons x (.cons y ys) =>
      render lvl x ++ ",\n" ++ indentStr lvl ++ renderArrItems lvl (.cons y ys)

def renderObjItems (lvl : Nat) : JsonObj → String
  | .nil => ""
  | .cons k v .nil => renderString k ++ ": " ++ render lvl v
  | .cons k v (.cons k2 v2 rest) =>
      renderString k ++ ": " ++ render lvl v ++ ",\n" ++ indentStr lvl ++
        renderObjItems lvl (.cons k2 v2 rest)
end

/-- JSON whitespace skipping. -/
def skipWs : List Char → List Char
  | [] => []
  | c :: cs =>
    if c = ' ' ∨ c = Char.ofNat 10 ∨ c = Char.ofNat 9 ∨ c = Char.ofNat 13 then skipWs cs
    else c :: cs

/-- Value of a hexadecimal digit character. -/
def hexVal (c : Char) : Option Nat :=
  if 48 ≤ c.toNat ∧ c.toNat ≤ 57 then some (c.toNat - 48)
  else if 97 ≤ c.toNat ∧ c.toNat ≤ 102 then some (c.toNat - 87)
  else if 65 ≤ c.toNat ∧ c.toNat ≤ 70 then some (c.toNat - 55)
  else none

/-- Decoding of a single-character string escape. -/
def escCode (e : Char) : Option Char :=
  if e = quoteChar then some quoteChar
  else if e = backslashChar then some backslashChar
  else if e = '/' then some '/'
  else if e = 'n' then some (Char.ofNat 10)
  else if e = 't' then some (Char.ofNat 9)
  else if e = 'r' then some (Char.ofNat 13)
  else if e = 'b' then some (Char.ofNat 8)
  else if e = 'f' then some (Char.ofNat 12)
  else none

/-- Parse the body of a JSON string literal (after the opening quote):
returns the decoded characters and the input after the closing quote.
Lone `\uXXXX` surrogate halves are rejected (a model boundary; the
documents of the spec section 6 shape never need them). -/
def parseStringBody : List Char → Option (List Char × List Char)
  | [] => none
  | c :: cs =>
    if c = quoteChar then some ([], cs)
    else if c = backslashChar then
      match cs with
      | [] => none
      | e :: cs2 =>
        if e = 'u' then
          match cs2 with
          | h1 :: h2 :: h3 :: h4 :: cs3 =>
            match hexVal h1, hexVal h2, hexVal h3, hexVal h4 with
            | some a, some b, some c3, some d =>
              let n := 4096 * a + 256 * b + 16 * c3 + d
              if 55296 ≤ n ∧ n ≤ 57343 then none
              else
                match parseStringBody cs3 with
                | some (s, r) => some (Char.ofNat n :: s, r)
                | none => none
            | _, _, _, _ => none
          | _ => none
        else
          match escCode e with
          | some d =>
            match parseStringBody cs2 with
            | some (s, r) => some (d :: s, r)
            | none => none
          | none => none
    else
      match parseStringBody cs with
      | some (s, r) => some (c :: s, r)
      | none => none

/-- Result of one recursive-descent step: a value, array items, or object
items. -/
inductive PRes where
  | v : Json → PRes
  | a : JsonArr → PRes
  | o : JsonObj → PRes

/-- What the descent is currently parsing. -/
inductive PTask where
  | val : PTask
  | arrItems : PTask
  | objItems : PTask

/-- Fuel-based recursive descent over the JSON fragment used by the
persisted document (null, strings, arrays, objects); the fuel only bounds
the recursion depth of the descent, each step consumes input. -/
def parseStep : Nat → PTask → List Char → Option (PRes × List Char)
  | 0, _, _ => none
  | f + 1, PTask.val, input =>
    match skipWs input with
    | [] => none
    | c :: cs =>
      if c = quoteChar then
        match parseStringBody cs with
        | some (s, r) => some (PRes.v (Json.str (String.mk s)), r)
        | none => none
      else if c = '[' then
        match skipWs cs with
        | ']' :: r => some (PRes.v (Json.arr JsonArr.nil), r)
        | cs2 =>
          match parseStep f PTask.arrItems cs2 with
          | some (PRes.a items, r) => some (PRes.v (Json.arr items), r)
          | _ => none
      else if c = lbraceChar then
        match skipWs cs with
        | [] => none
        | c2 :: r =>
          if c2 = rbraceChar then some (PRes.v (Json.obj JsonObj.nil), r)
          else
            match parseStep f PTask.objItems (c2 :: r) with
            | some (PRes.o items, r2) => some (PRes.v (Json.obj items), r2)
            | _ => none
      else
        match c :: cs with
        | 'n' :: 'u' :: 'l' :: 'l' :: rest => some (PRes.v Json.null, rest)
        | _ => none
  | f + 1, PTask.arrItems, input =>
    match parseStep f PTask.val input with
    | some (PRes.v j, rest) =>
      (match skipWs rest with
       | ',' :: r2 =>
         match parseStep f PTask.arrItems r2 with
         | some (PRes.a items, r3) => some (PRes.a (JsonArr.cons j items), r3)
         | _ => none
       | ']' :: r2 => some (PRes.a (JsonArr.cons j JsonArr.nil), r2)
       | _ => none)
    | _ => none
  | f + 1, PTask.objItems, input =>
    match skipWs input with
    | [] => none
    | c :: cs =>
      if c = quoteChar then
        match parseStringBody cs with
        | some (k, rest) =>
          match skipWs rest with
          | ':' :: r2 =>
            match parseStep f PTask.val r2 with
            | some (PRes.v j, r3) =>
              (match skipWs r3 with
               | ',' :: r4 =>
                 match parseStep f PTask.objItems r4 with
                 | some (PRes.o items, r5) =>
                   some (PRes.o (JsonObj.cons (String.mk k) j items), r5)
                 | _ => none
               | c5 :: r4 =>
                 if c5 = rbraceChar then
                   some (PRes.o (JsonObj.cons (String.mk k) j JsonObj.nil), r4)
                 else none
               | [] => none)
            | _ => none
          | _ => none
        | none => none
      else none

/-- Parsing of a whole document, modelling `json.load` on the document
fragment of spec section 6 (the fuel `2 * length + 4` dominates the
descent depth, which grows by at most two per consumed character). -/
def parseJson (s : String) : Option Json :=
  match parseStep (2 * s.length + 4) PTask.val s.data with
  | some (PRes.v j, rest) =>
    match skipWs rest with
    | [] => some j
    | _ :: _ => none
  | _ => none

/-- Lookup of a key in an object, first match (Python dictionaries hold
each key once). -/
def objGet (k : String) : JsonObj → Option Json
  | .nil => none
  | .cons k2 v rest => if k2 = k then some v else objGet k rest

/-- Dictionary access `j[k]` on a document. -/
def jsonGet (k : String) : Json → Option Json
  | .obj fields => objGet k fields
  | _ => none

/-- Dictionary assignment on the field list: an existing key keeps its
position and gets the new value, a missing key is appended at the end —
Python dictionary insertion-order semantics. -/
def objSet (k : String) (v : Json) : JsonObj → JsonObj
  | .nil => JsonObj.cons k v JsonObj.nil
  | .cons k2 v2 rest =>
    if k2 = k then JsonObj.cons k2 v rest else JsonObj.cons k2 v2 (objSet k v rest)

/-- Dictionary assignment `j[k] = v` on a document (`data["last_updated"] = ...`,
src/test.py line 26, acts on the loaded dictionary). -/
def jsonSetKey (k : String) (v : Json) : Json → Json
  | .obj fields => .obj (objSet k v fields)
  | j => j

/-- The fresh dictionary returned when no file exists:
`{"creator": CREATOR, "videos": [], "last_updated": None}` (src/test.py
line 22). -/
def freshState : Json :=
  Json.obj (JsonObj.cons "creator" (Json.str CREATOR)
    (JsonObj.cons "videos" (Json.arr JsonArr.nil)
      (JsonObj.cons "last_updated" Json.null JsonObj.nil)))

/-- Embeds `load_existing_data` (src/test.py lines 18-22): the store is the
optional file contents; a present file is parsed with `json.load` (an
unparseable one raises — the spec's `StateCorruptError`), a missing file
yields the fresh dictionary. -/
def load_existing_data (store : Option String) : Except String Json :=
  match store with
  | some s =>
    match parseJson s with
    | some j => Except.ok j
    | none => Except.error "StateCorruptError"
  | none => Except.ok freshState

/-- The file contents written by `save_data` (src/test.py lines 24-29):
`last_updated` is assigned on the dictionary and the whole document is
re-serialized with `json.dump(data, f, indent=2)`, overwriting the file. -/
def save_data_json (timeStr : String) (j : Json) : String :=
  render 0 (jsonSetKey "last_updated" (Json.str timeStr) j)

/-- A `string | null` field of the document shape. -/
def optStrOfJson : Json → Option (Option String)
  | Json.null => some none
  | Json.str s => some (some s)
  | _ => none

/-- A `videos` element of the document shape of spec section 6. -/
def recordOfJson (j : Json) : Option VideoRecord :=
  match jsonGet "id" j, jsonGet "title" j, jsonGet "url" j,
      jsonGet "scraped_at" j, jsonGet "transcript" j with
  | some (Json.str i), some (Json.str t), some (Json.str u),
      some (Json.str sa), some tr =>
    match optStrOfJson tr with
    | some tro => some ⟨i, t, u, sa, tro⟩
    | none => none
  | _, _, _, _, _ => none

/-- All elements of the `videos` array, shape-checked. -/
def recordsOfArr : JsonArr → Option (List VideoRecord)
  | .nil => some []
  | .cons x xs =>
    match recordOfJson x, recordsOfArr xs with
    | some r, some rs => some (r :: rs)
    | _, _ => none

/-- The structured view of a well-formed persisted document (the exact
shape of spec section 6). -/
def stateOfJson (j : Json) : Option LibraryState :=
  match jsonGet "creator" j, jsonGet "videos" j, jsonGet "last_updated" j with
  | some (Json.str c), some (Json.arr vs), some lu =>
    match recordsOfArr vs, optStrOfJson lu with
    | some rs, some luo => some ⟨c, rs, luo⟩
    | _, _ => none
  | _, _, _ => none

/-- A `string | null` value as a document node. -/
def jsonOfOptStr : Option String → Json
  | none => Json.null
  | some s => Json.str s

/-- The document node for one record, keys in the construction order of
src/test.py lines 147-153. -/
def jsonOfRecord (r : VideoRecord) : Json :=
  Json.obj (JsonObj.cons "id" (Json.str r.id)
    (JsonObj.cons "title" (Json.str r.title)
      (JsonObj.cons "url" (Json.str r.url)
        (JsonObj.cons "scraped_at" (Json.str r.scraped_at)
          (JsonObj.cons "transcript" (jsonOfOptStr r.transcript) JsonObj.nil)))))

/-- The `videos` array node. -/
def arrOfRecords : List VideoRecord → JsonArr
  | [] => JsonArr.nil
  | r :: rs => JsonArr.cons (jsonOfRecord r) (arrOfRecords rs)

/-- The document for a structured state, keys in the order of the fresh
dictionary (src/test.py line 22). -/
def jsonOfState (st : LibraryState) : Json :=
  Json.obj (JsonObj.cons "creator" (Json.str st.creator)
    (JsonObj.cons "videos" (Json.arr (arrOfRecords st.videos))
      (JsonObj.cons "last_updated" (jsonOfOptStr st.last_updated) JsonObj.nil)))

/-- One sync run at the file level: `main` composed with the store
(src/test.py lines 113-159).  The result is the new file contents on
success; an error value means the run aborted with nothing written — the
exception from `json.load` propagates out of `main` before any state is
touched (there is no handler in src/test.py), so no save happens.  A
parseable document that does not have the spec section 6 shape aborts on
dictionary access (`data["videos"]`), likewise before any write. -/
def runSyncFile (store : Option String) (cands : List Candidate)
    (dateStr timeStr : String) (audio transcribe : Candidate → Option String) :
    Except String String :=
  match load_existing_data store with
  | Except.error e => Except.error e
  | Except.ok j =>
    match stateOfJson j with
    | none => Except.error "KeyError"
    | some st =>
      Except.ok (render 0 (jsonOfState (runSync st cands dateStr timeStr audio transcribe)))

/-- C7 (confirmed): a file whose contents cannot be parsed makes `load`
fail with the fatal `StateCorruptError` (the `json.load` exception,
src/test.py lines 20-21, has no handler in `main`), and the whole run
aborts with an error before any state mutation — the error result carries
no new file contents, so the on-disk file is not overwritten. -/
theorem load_corrupt_aborts (s : String) (cands : List Candidate)
    (dateStr timeStr : String) (audio transcribe : Candidate → Option String)
    (h : parseJson s = none) :
    load_existing_data (some s) = Except.error "StateCorruptError" ∧
    runSyncFile (some s) cands dateStr timeStr audio transcribe =
      Except.error "StateCorruptError" := by
  constructor
  · simp [load_existing_data, h]
  · simp [runSyncFile, load_existing_data, h]

/-- Witness for C7 at a concrete unparseable file. -/
theorem load_corrupt_aborts_witness :
    parseJson "totally not json" = none ∧
    (load_existing_data (some "totally not json") = Except.error "StateCorruptError" ∧
     runSyncFile (some "totally not json") [] "20240101" "t1"
       (fun _ => none) (fun _ => none) = Except.error "StateCorruptError") :=
  ⟨rfl, load_corrupt_aborts "totally not json" [] "20240101" "t1"
    (fun _ => none) (fun _ => none) rfl⟩

/-- C8 (confirmed): with no file at the output path, `load` succeeds and
returns the fresh empty state — configured creator name, empty `videos`,
absent `last_updated` (src/test.py line 22). -/
theorem load_missing_file_fresh :
    load_existing_data none = Except.ok freshState ∧
    stateOfJson freshState =
      some { creator := CREATOR, videos := [], last_updated := none } :=
  ⟨rfl, rfl⟩

/-- A well-formed persisted document in compact (non-pretty-printed)
formatting: valid JSON of the exact spec section 6 shape, but not in the
output format of `json.dump(..., indent=2)`. -/
def compactDoc : String :=
  "\x7b\"creator\": \"pinkpennies_\", \"videos\": [], \"last_updated\": \"2024-01-01T09:00:00\"\x7d"

/-- The parsed structure of `compactDoc`. -/
def compactJson : Json :=
  Json.obj (JsonObj.cons "creator" (Json.str "pinkpennies_")
    (JsonObj.cons "videos" (Json.arr JsonArr.nil)
      (JsonObj.cons "last_updated" (Json.str "2024-01-01T09:00:00") JsonObj.nil)))

/-- C9 (counterexample): `compactDoc` is a well-formed persisted document;
saving exactly what was loaded from it — even stamping `last_updated` with
the very value it already holds, so the claim would force the output bytes
to equal the input bytes — produces a byte-different file (the whole
document is re-rendered in `indent=2` format) whose parsed structure is
nevertheless identical.  The differences therefore lie outside every
field, refuting byte-for-byte equivalence aside from `last_updated`. -/
theorem save_load_not_byte_identical :
    parseJson compactDoc = some compactJson ∧
    jsonGet "last_updated" compactJson = some (Json.str "2024-01-01T09:00:00") ∧
    jsonSetKey "last_updated" (Json.str "2024-01-01T09:00:00") compactJson = compactJson ∧
    parseJson (save_data_json "2024-01-01T09:00:00" compactJson) = some compactJson ∧
    save_data_json "2024-01-01T09:00:00" compactJson ≠ compactDoc :=
  ⟨rfl, rfl, rfl, rfl, by decide⟩

/-- Dictionary assignment stores the assigned value under the key. -/
theorem objGet_objSet_self (k : String) (v : Json) :
    ∀ fields : JsonObj, objGet k (objSet k v fields) = some v
  | JsonObj.nil => by simp [objGet, objSet]
  | JsonObj.cons k2 v2 rest => by
    by_cases h : k2 = k
    · simp [objSet, objGet, h]
    · simp only [objSet, objGet, h, if_false]
      exact objGet_objSet_self k v rest

/-- Dictionary assignment leaves every other key's value unchanged. -/
theorem objGet_objSet_ne (k k' : String) (v : Json) (hne : k' ≠ k) :
    ∀ fields : JsonObj, objGet k' (objSet k v fields) = objGet k' fields
  | JsonObj.nil => by simp [objGet, objSet, Ne.symm hne]
  | JsonObj.cons k2 v2 rest => by
    by_cases h : k2 = k
    · subst h
      simp [objSet, objGet, Ne.symm hne]
    · by_cases h2 : k2 = k'
      · simp [objSet, objGet, h, h2, hne]
      · simp only [objSet, objGet, h, h2, if_false]
        exact objGet_objSet_ne k k' v hne rest

/-- C9 (amended): for every well-formed persisted document, what `save`
writes after `load` is the rendering of the loaded dictionary with only
`last_updated` reassigned: the structured view of the saved document is
the loaded state with only `last_updated` replaced by the stamp, and every
other key's value is untouched.  Byte-for-byte equivalence aside from
`last_updated` holds only when the input already uses the serializer's
`indent=2` formatting; otherwise the whole file is reformatted (see the
counterexample). -/
theorem save_load_roundtrip_structure (s : String) (j : Json) (st : LibraryState)
    (t k : String)
    (hparse : parseJson s = some j)
    (hwf : stateOfJson j = some st)
    (hk : k ≠ "last_updated") :
    save_data_json t j = render 0 (jsonSetKey "last_updated" (Json.str t) j) ∧
    stateOfJson (jsonSetKey "last_updated" (Json.str t) j) =
      some { st with last_updated := some t } ∧
    jsonGet k (jsonSetKey "last_updated" (Json.str t) j) = jsonGet k j ∧
    jsonGet "last_updated" (jsonSetKey "last_updated" (Json.str t) j) =
      some (Json.str t) := by
  cases j with
  | null => simp [stateOfJson, jsonGet] at hwf
  | str s2 => simp [stateOfJson, jsonGet] at hwf
  | arr a => simp [stateOfJson, jsonGet] at hwf
  | obj fields =>
    have hc := objGet_objSet_ne "last_updated" "creator" (Json.str t) (by decide) fields
    have hv := objGet_objSet_ne "last_updated" "videos" (Json.str t) (by decide) fields
    have hl := objGet_objSet_self "last_updated" (Json.str t) fields
    have hkk := objGet_objSet_ne "last_updated" k (Json.str t) hk fields
    refine ⟨rfl, ?_, ?_, ?_⟩
    · simp only [stateOfJson, jsonGet, jsonSetKey] at hwf ⊢
      rw [hc, hv, hl]
      split at hwf
      next c vs lu heqc heqv heql =>
        split at hwf
        next rs luo heqr heqo =>
          simp only [Option.some.injEq] at hwf
          subst hwf
          rw [heqc, heqv]
          show (match recordsOfArr vs, optStrOfJson (Json.str t) with
            | some rs, some luo =>
              some ({ creator := c, videos := rs, last_updated := luo } : LibraryState)
            | _, _ => none) =
            some ({ creator := c, videos := rs, last_updated := some t } : LibraryState)
          rw [heqr]
          rfl
        next hbad =>
          exact absurd hwf (by simp)
      next hbad =>
        exact absurd hwf (by simp)
    · simp only [jsonSetKey, jsonGet]
      exact hkk
    · simp only [jsonSetKey, jsonGet]
      exact hl

/-- Witness for the amended C9 at the concrete compact document. -/
theorem save_load_roundtrip_structure_witness :
    save_data_json "2025-05-05T05:05:05" compactJson =
      render 0 (jsonSetKey "last_updated" (Json.str "2025-05-05T05:05:05") compactJson) ∧
    stateOfJson (jsonSetKey "last_updated" (Json.str "2025-05-05T05:05:05") compactJson) =
      some { creator := "pinkpennies_", videos := [],
             last_updated := some "2025-05-05T05:05:05" } ∧
    jsonGet "creator" (jsonSetKey "last_updated" (Json.str "2025-05-05T05:05:05") compactJson) =
      jsonGet "creator" compactJson ∧
    jsonGet "last_updated"
        (jsonSetKey "last_updated" (Json.str "2025-05-05T05:05:05") compactJson) =
      some (Json.str "2025-05-05T05:05:05") :=
  save_load_roundtrip_structure compactDoc compactJson
    { creator := "pinkpennies_", videos := [], last_updated := some "2024-01-01T09:00:00" }
    "2025-05-05T05:05:05" "creator" rfl rfl (by decide)

end Pennies
